import Mathlib

/-!
Verification development for the shiojiri-rainbow-seeker ML prediction core.

Shallow embedding of `src/ml-system/src/prediction/predictor.py`
(class `RainbowPredictionService`) and of the prediction path of
`src/ml-system/src/model_training/trainer.py` (class `RainbowPredictor`).

Modelling conventions:
* Python dicts become association lists `List (String × _)`; `dict.update`
  and key lookup are embedded explicitly (`dictUpdate`, `dictGet`).
* Python floats become `ℚ`.  All comparisons and arithmetic the claims
  touch are order- and field-exact, so the idealization is faithful there.
* Fallible Python code (functions that may raise) returns `Except String _`.
* The in-place mutation `weather_data.update(location)` performed by
  `predict_rainbow_probability` is made explicit: the function returns the
  caller-visible observation dict alongside the result.
* Wall-clock fields (`execution_time`, `timestamp`, `cached_at`) and the
  fire-and-forget database write are dropped: no claim mentions them.
-/

namespace RainbowSeeker

/-- A Python scalar value stored in a weather-observation dict: either a
numeric measurement or a string (e.g. a timestamp). -/
inductive PyVal where
  | num (q : ℚ)
  | str (s : String)
deriving DecidableEq, Repr

/-- A weather observation: Python `Dict[str, Any]` as an association list. -/
abbrev Obs := List (String × PyVal)

/-- A transformed feature record: Python `Dict[str, float]`. -/
abbrev Features := List (String × ℚ)

/-- A location dict (`latitude` / `longitude` keys): Python `Dict[str, float]`. -/
abbrev Loc := List (String × ℚ)

/-- Python dict lookup `d[k]` / `d.get(k)` on an association list. -/
def dictGet {α : Type} : List (String × α) → String → Option α
  | [], _ => none
  | (k2, v) :: rest, k => if k2 = k then some v else dictGet rest k

/-- Python `k in d`. -/
def dictContains {α : Type} (d : List (String × α)) (k : String) : Bool :=
  (dictGet d k).isSome

/-- Python `d[k] = v`: replaces the value in place if the key exists
(keeping insertion order), otherwise appends the new key. -/
def dictSet {α : Type} (d : List (String × α)) (k : String) (v : α) :
    List (String × α) :=
  if dictContains d k then
    d.map (fun kv => if kv.1 = k then (k, v) else kv)
  else
    d ++ [(k, v)]

/-- Python `d.update(d2)`: sets every key of `d2` in `d`, in order. -/
def dictUpdate {α : Type} (d d2 : List (String × α)) : List (String × α) :=
  d2.foldl (fun acc kv => dictSet acc kv.1 kv.2) d

/-- Numeric lookup: the value of key `k` when present and numeric. -/
def dictGetNum (d : Obs) (k : String) : Option ℚ :=
  match dictGet d k with
  | some (.num q) => some q
  | _ => none

/-! ### Rounding (`round(value, ndigits)` in `_create_cache_key`)

Python's `round` rounds half to even.  We idealize binary floats as exact
rationals; none of the claims probes a float-representation corner case. -/

/-- Round a rational to the nearest integer, half to even (Python `round`). -/
def roundHalfEven (q : ℚ) : ℤ :=
  let f : ℤ := ⌊q⌋
  if q - f < 1/2 then f
  else if 1/2 < q - f then f + 1
  else if f % 2 = 0 then f else f + 1

/-- Python `round(q, ndigits)` for `ndigits ≥ 0`. -/
def pyRound (q : ℚ) (ndigits : ℕ) : ℚ :=
  (roundHalfEven (q * (10 : ℚ) ^ ndigits) : ℚ) / (10 : ℚ) ^ ndigits

/-! ### Cache key derivation (`_create_cache_key`, predictor.py 238-255)

The Python code serializes the quantized dict with
`json.dumps(cache_data, sort_keys=True)` and applies the built-in string
`hash`.  We embed the composite serialize-and-hash step as a concrete
injective-by-construction fingerprint of the quantized data: every numeric
field reaching it has already been rounded to at most 4 decimal places, so
rendering a number as `⌊q·10⁴⌋` scaled by `e-4` is exact, mirroring the
decimal rendering `json.dumps` gives those rounded floats.  Python's
`hash` is modelled as the identity fingerprint: the spec's distinct-key
guarantee presupposes collision-freedom on these canonical strings. -/

/-- Decimal digits of a natural number (auxiliary, fuel-based). -/
def natStrAux : ℕ → ℕ → String
  | 0, _ => ""
  | fuel + 1, n =>
      if n < 10 then String.singleton (Nat.digitChar n)
      else natStrAux fuel (n / 10) ++ String.singleton (Nat.digitChar (n % 10))

/-- Decimal rendering of a natural number. -/
def natStr (n : ℕ) : String := natStrAux (n + 1) n

/-- Decimal rendering of an integer. -/
def intStr (z : ℤ) : String :=
  if z < 0 then "-" ++ natStr z.natAbs else natStr z.natAbs

/-- JSON rendering of one scalar of the quantized cache dict (see the
section comment: rounded numerics render exactly at scale `10⁻⁴`). -/
def serializePyVal : PyVal → String
  | .num q => intStr ⌊q * 10000⌋ ++ "e-4"
  | .str s => "\x22" ++ s ++ "\x22"

/-- Insertion into a key-sorted association list. -/
def insertByKey (kv : String × PyVal) :
    List (String × PyVal) → List (String × PyVal)
  | [] => [kv]
  | kv2 :: rest =>
      if kv.1 ≤ kv2.1 then kv :: kv2 :: rest else kv2 :: insertByKey kv rest

/-- Key-sort of an association list (`sort_keys=True` in `json.dumps`). -/
def sortByKey (d : List (String × PyVal)) : List (String × PyVal) :=
  d.foldr insertByKey []

/-- The canonical string `json.dumps(cache_data, sort_keys=True)`. -/
def jsonDumpsSorted (d : List (String × PyVal)) : String :=
  let entries := (sortByKey d).map
    (fun kv => "\x22" ++ kv.1 ++ "\x22: " ++ serializePyVal kv.2)
  "\x7b" ++ String.intercalate ", " entries ++ "\x7d"

/-- The built-in `hash` over the canonical string, modelled as an injective
fingerprint (the identity on the canonical string). -/
def pyStringHash (s : String) : String := s

/-- `_create_cache_key(weather_data, location)` (predictor.py 238-255):
round numeric weather fields to 2 decimals, `lat`/`lon` to 4 decimals,
serialize with sorted keys, hash, and prefix the namespace tag. -/
def create_cache_key (weather_data : Obs) (location : Option Loc) : String :=
  let cache_data : List (String × PyVal) := weather_data.map
    (fun kv => match kv.2 with
      | .num v => (kv.1, PyVal.num (pyRound v 2))
      | .str s => (kv.1, PyVal.str s))
  let cache_data := match location with
    | some loc =>
        dictSet (dictSet cache_data
            "lat" (.num (pyRound ((dictGet loc "latitude").getD 0) 4)))
            "lon" (.num (pyRound ((dictGet loc "longitude").getD 0) 4))
    | none => cache_data
  "rainbow_prediction:" ++ pyStringHash (jsonDumpsSorted cache_data)

/-! ### Trainer prediction (`RainbowPredictor.predict`, trainer.py 282-329) -/

/-- The loaded model bundle: the trained `feature_names` schema, the best
model's name, and the classifier capability.  `predict_proba` stands for
scaling (when applicable) followed by `model.predict_proba(X)[0, 1]`; it
may fail, modelling an exception from the underlying classifier. -/
structure TrainedModel where
  model_name : String
  feature_names : List String
  predict_proba : List ℚ → Except String ℚ

/-- The feature-vector construction loop of `predict` (trainer.py 294-297):
each trained feature name in order, absent names defaulting to `0`. -/
def feature_vector (m : TrainedModel) (features : Features) : List ℚ :=
  m.feature_names.map (fun name => (dictGet features name).getD 0)

/-- `config.PREDICTION_THRESHOLD` (config.py 46, default 0.5). -/
def PREDICTION_THRESHOLD : ℚ := 0.5

/-- The trainer-level prediction result (trainer.py 316-323), without the
wall-clock fields. -/
structure TrainerResult where
  probability : ℚ
  prediction : ℕ
  confidence : String
  model_used : String
deriving DecidableEq, Repr

/-- `RainbowPredictor.predict(weather_data)` (trainer.py 282-329):
feature engineering (`transform`, standing for
`feature_engineer.transform_single_prediction`), feature-vector assembly,
classifier call, thresholded class, and the confidence heuristic.  The
no-trained-model guard at trainer.py 285 is carried by
`Service.model_loaded` at the service layer, which checks it before ever
calling this function. -/
def trainer_predict (m : TrainedModel) (transform : Obs → Except String Features)
    (weather_data : Obs) : Except String TrainerResult :=
  match transform weather_data with
  | .error e => .error e
  | .ok features =>
      match m.predict_proba (feature_vector m features) with
      | .error e => .error e
      | .ok probability =>
          .ok { probability := probability
                prediction := if PREDICTION_THRESHOLD ≤ probability then 1 else 0
                confidence :=
                  if 0.7 < probability ∨ probability < 0.3 then "high" else "medium"
                model_used := m.model_name }

/-! ### Prediction service (`RainbowPredictionService`, predictor.py) -/

/-- An enriched prediction dict as returned by the service operations.
Keys a given code path does not set are modelled as `none` / defaults
(`error` and the index annotations exist only on the degraded items of
batch and time-series results). -/
structure PredOut where
  probability : ℚ
  prediction : ℕ
  confidence : String
  model_used : Option String := none
  location : Option Loc := none
  weather_conditions : Option String := none
  recommendation : Option String := none
  cached : Bool := false
  error : Option String := none
  batch_index : Option ℕ := none
  forecast_hour : Option ℕ := none
deriving DecidableEq, Repr

/-- The Redis client together with its failure behaviour: `get_fails`
(resp. `set_fails`) models any exception thrown by a read (resp. write)
against the external store. -/
structure RedisClient where
  store : List (String × PredOut)
  get_fails : Bool
  set_fails : Bool
deriving DecidableEq, Repr

/-- `_get_cached_prediction` (predictor.py 257-267): any read error is
swallowed and yields `None`; a hit is returned with `cached = True`. -/
def get_cached_prediction (r : RedisClient) (cache_key : String) : Option PredOut :=
  if r.get_fails then none
  else
    match dictGet r.store cache_key with
    | some result => some { result with cached := true }
    | none => none

/-- `_cache_prediction` (predictor.py 269-280): any write error is
swallowed, leaving the store untouched (the TTL and the `cached_at`
stamp of the stored copy are not modelled; no claim reads them). -/
def cache_prediction (r : RedisClient) (cache_key : String) (result : PredOut) :
    RedisClient :=
  if r.set_fails then r
  else { r with store := dictSet r.store cache_key result }

/-- The prediction service state: loaded-model flag, model bundle, the
feature-engineering transform, and the optional Redis connection. -/
structure Service where
  model_loaded : Bool
  model : TrainedModel
  transform : Obs → Except String Features
  redis_client : Option RedisClient

/-- `_summarize_weather_conditions` (predictor.py 295-334). -/
def summarize_weather_conditions (weather_data : Obs) : String :=
  let conditions : List String :=
    (match dictGetNum weather_data "temperature" with
     | some temp =>
         [if temp < 10 then "cold" else if 25 < temp then "warm" else "mild"]
     | none => []) ++
    (match dictGetNum weather_data "humidity" with
     | some humidity =>
         [if 80 < humidity then "very humid"
          else if 60 < humidity then "humid" else "dry"]
     | none => []) ++
    (match dictGetNum weather_data "precipitation" with
     | some precip =>
         if 5 < precip then ["heavy rain"]
         else if 0 < precip then ["light rain"] else []
     | none => []) ++
    (match dictGetNum weather_data "cloud_cover" with
     | some clouds =>
         [if 75 < clouds then "overcast"
          else if 25 < clouds then "partly cloudy" else "clear"]
     | none => [])
  if conditions = [] then "unknown conditions"
  else String.intercalate ", " conditions

/-- `_generate_recommendation` (predictor.py 336-348). -/
def generate_recommendation (probability : ℚ) : String :=
  if 0.8 ≤ probability then
    "Excellent chance of rainbow! Get your camera ready and head outside."
  else if 0.6 ≤ probability then
    "Good chance of rainbow. Keep an eye on the sky and be prepared."
  else if 0.4 ≤ probability then
    "Moderate chance of rainbow. Weather conditions are promising."
  else if 0.2 ≤ probability then
    "Low chance of rainbow, but still possible under right conditions."
  else
    "Very low chance of rainbow with current weather conditions."

/-- The location dict viewed as observation entries, as consumed by
`weather_data.update(location)`. -/
def locEntries (loc : Loc) : Obs := loc.map (fun kv => (kv.1, PyVal.num kv.2))

/-- The observable outcome of one `predict_rainbow_probability` call: the
returned result, the caller's `weather_data` dict after the call (the code
mutates it in place at predictor.py 78-79), and the Redis client state. -/
structure PredOutcome where
  result : PredOut
  weather_data : Obs
  redis_client : Option RedisClient
deriving Repr

/-- `predict_rainbow_probability(weather_data, location, use_cache)`
(predictor.py 54-107): model-loaded precondition, cache-key derivation
and lookup with early return on a hit, in-place merge of the location
into the observation, trainer prediction, metadata enrichment, and a
best-effort cache write.  The swallowed database write is dropped. -/
def predict_rainbow_probability (svc : Service) (weather_data : Obs)
    (location : Option Loc) (use_cache : Bool) : Except String PredOutcome :=
  if svc.model_loaded = false then
    .error "No trained model available. Please train a model first."
  else
    let cache_key : Option String :=
      if use_cache then some (create_cache_key weather_data location) else none
    let hit : Option PredOut :=
      match cache_key, svc.redis_client with
      | some k, some r => get_cached_prediction r k
      | _, _ => none
    match hit with
    | some cached_result =>
        .ok { result := cached_result, weather_data := weather_data
              redis_client := svc.redis_client }
    | none =>
        let weather_data :=
          match location with
          | some loc => dictUpdate weather_data (locEntries loc)
          | none => weather_data
        match trainer_predict svc.model svc.transform weather_data with
        | .error e => .error e
        | .ok tr =>
            let result : PredOut :=
              { probability := tr.probability
                prediction := tr.prediction
                confidence := tr.confidence
                model_used := some tr.model_used
                location := location
                weather_conditions := some (summarize_weather_conditions weather_data)
                recommendation := some (generate_recommendation tr.probability)
                cached := false }
            let redis_client :=
              match cache_key, svc.redis_client with
              | some k, some r => some (cache_prediction r k result)
              | _, rc => rc
            .ok { result := result, weather_data := weather_data
                  redis_client := redis_client }

/-- The degraded per-item result a failing batch item yields
(predictor.py 125-131). -/
def batch_error_item (e : String) (i : ℕ) : PredOut :=
  { probability := 0.0, prediction := 0, confidence := "low"
    error := some e, batch_index := some i }

/-- `predict_batch(weather_data_list, location)` (predictor.py 109-140):
per-item `predict_rainbow_probability` with `use_cache=False`, indexing
each result and isolating per-item failures. -/
def predict_batch (svc : Service) (weather_data_list : List Obs)
    (location : Option Loc) : List PredOut :=
  weather_data_list.enum.map (fun iw =>
    match predict_rainbow_probability svc iw.2 location false with
    | .ok out => { out.result with batch_index := some iw.1 }
    | .error e => batch_error_item e iw.1)

/-! ### Forecast window analyzer (`_find_peak_probability_windows`,
predictor.py 375-415) -/

/-- A peak-probability window dict. -/
structure ForecastWindow where
  start_hour : ℕ
  end_hour : ℕ
  max_probability : ℚ
  avg_probability : ℚ
  duration : ℕ
deriving DecidableEq, Repr

/-- `np.mean` of a rational list (total; the empty case never arises on the
paths the theorems traverse). -/
def listMean (l : List ℚ) : ℚ := l.sum / l.length

/-- The hard-coded `threshold = 0.5` of the window scan (predictor.py 380). -/
def peak_threshold : ℚ := 0.5

/-- The `window_predictions` selection at window close (predictor.py
402-403): every prediction whose `forecast_hour` lies in
`[start_hour, end_hour]`. -/
def window_predictions (predictions : List PredOut) (w : ForecastWindow) :
    List PredOut :=
  predictions.filter (fun p =>
    decide (w.start_hour ≤ p.forecast_hour.getD 0) &&
    decide (p.forecast_hour.getD 0 ≤ w.end_hour))

/-- Closing a window (predictor.py 400-405): overwrite `avg_probability`
with the mean probability over the hours the window spans. -/
def close_window (predictions : List PredOut) (w : ForecastWindow) :
    ForecastWindow :=
  { w with avg_probability :=
      listMean ((window_predictions predictions w).map (fun p => p.probability)) }

/-- The scan loop of `_find_peak_probability_windows`: `windows` collects
closed windows, `current_window` is the at-most-one open window, and the
last argument is the remaining input.  `predictions` stays the full input
list, used by the close-time averaging. -/
def find_windows_loop (predictions : List PredOut)
    (windows : List ForecastWindow) (current_window : Option ForecastWindow) :
    List PredOut → List ForecastWindow
  | [] =>
      match current_window with
      | none => windows
      | some w => windows ++ [close_window predictions w]
  | p :: rest =>
      let prob := p.probability
      let hour := p.forecast_hour.getD 0
      if peak_threshold ≤ prob then
        match current_window with
        | none =>
            find_windows_loop predictions windows
              (some { start_hour := hour, end_hour := hour
                      max_probability := prob, avg_probability := prob
                      duration := 1 }) rest
        | some w =>
            find_windows_loop predictions windows
              (some { w with
                        end_hour := hour,
                        max_probability := max w.max_probability prob,
                        duration := w.duration + 1 }) rest
      else
        match current_window with
        | none => find_windows_loop predictions windows none rest
        | some w =>
            find_windows_loop predictions
              (windows ++ [close_window predictions w]) none rest

/-- `_find_peak_probability_windows(predictions)` (predictor.py 375-415). -/
def find_peak_probability_windows (predictions : List PredOut) :
    List ForecastWindow :=
  find_windows_loop predictions [] none predictions

/-! ### Time-series forecast (`predict_time_series`, predictor.py 142-185,
and `_summarize_forecast`, predictor.py 417-428) -/

/-- Maximum of a rational list; `none` on the empty list, where Python's
`max([])` raises `ValueError`. -/
def listMax : List ℚ → Option ℚ
  | [] => none
  | q :: rest => some (rest.foldl max q)

/-- `np.argmax`: index of the first occurrence of the maximum (0 as a
placeholder on the empty list, which Python would reject). -/
def listArgmax (l : List ℚ) : ℕ :=
  match listMax l with
  | none => 0
  | some m => l.indexOf m

/-- The `forecast_summary` dict (predictor.py 417-428). -/
structure ForecastSummary where
  max_probability : ℚ
  avg_probability : ℚ
  peak_hour : ℕ
  favorable_hours : ℕ
  total_hours : ℕ
deriving DecidableEq, Repr

/-- `_summarize_forecast(predictions)` (predictor.py 417-428), totalized
with placeholder values on the empty list (the caller raises before ever
summarizing an empty list). -/
def summarize_forecast (predictions : List PredOut) : ForecastSummary :=
  let probabilities := predictions.map (fun p => p.probability)
  { max_probability := (listMax probabilities).getD 0
    avg_probability := listMean probabilities
    peak_hour :=
      match predictions.get? (listArgmax probabilities) with
      | some p => p.forecast_hour.getD 0
      | none => 0
    favorable_hours := (probabilities.filter (fun p => decide (0.4 ≤ p))).length
    total_hours := probabilities.length }

/-- The time-series result dict (predictor.py 177-183), without the
wall-clock `generated_at` stamp. -/
structure TimeSeriesResult where
  predictions : List PredOut
  peak_windows : List ForecastWindow
  max_probability : ℚ
  forecast_summary : ForecastSummary
deriving Repr

/-- The degraded per-hour item of a failing time-series prediction
(predictor.py 166-172). -/
def forecast_error_item (e : String) (hour : ℕ) : PredOut :=
  { probability := 0.0, prediction := 0, confidence := "low"
    error := some e, forecast_hour := some hour }

/-- The per-hour prediction loop of `predict_time_series` (predictor.py
154-172): one entry per hour in `range(forecast_hours)`, degraded items
substituted in place on per-hour failures.  `simulate_weather_forecast`
covers the simulated forward projection together with the `timestamp`
stamping of predictor.py 156-157 (both wall-clock/random dependent). -/
def time_series_predictions (svc : Service)
    (simulate_weather_forecast : Obs → ℕ → Obs) (current_weather : Obs)
    (forecast_hours : ℕ) (location : Option Loc) : List PredOut :=
  (List.range forecast_hours).map (fun hour =>
    let forecast_weather := simulate_weather_forecast current_weather hour
    match predict_rainbow_probability svc forecast_weather location false with
    | .ok out => { out.result with forecast_hour := some hour }
    | .error e => forecast_error_item e hour)

/-- `predict_time_series(current_weather, forecast_hours, location)`
(predictor.py 142-185).  `simulate_weather_forecast` stands for
`_simulate_weather_forecast`, which reads the wall clock and draws random
precipitation jitter and is therefore passed as an explicit function of
the base observation and the hour offset.  `max([...])` over the per-hour
probabilities raises on an empty prediction list, embedded as the
`listMax = none` error branch. -/
def predict_time_series (svc : Service)
    (simulate_weather_forecast : Obs → ℕ → Obs) (current_weather : Obs)
    (forecast_hours : ℕ) (location : Option Loc) :
    Except String TimeSeriesResult :=
  let predictions : List PredOut := time_series_predictions svc
    simulate_weather_forecast current_weather forecast_hours location
  let peak_windows := find_peak_probability_windows predictions
  match listMax (predictions.map (fun p => p.probability)) with
  | none => .error "max() arg is an empty sequence"
  | some mx =>
      .ok { predictions := predictions, peak_windows := peak_windows
            max_probability := mx
            forecast_summary := summarize_forecast predictions }

/-- Whether an `Except` computation returned normally. -/
def exceptOk {ε α : Type} : Except ε α → Bool
  | .ok _ => true
  | .error _ => false

/-! ### Concrete fixtures for witnesses and counterexamples -/

/-- An hourly prediction item carrying just the fields the window scan
reads (`probability`, `forecast_hour`). -/
def mkhp (hour : ℕ) (probability : ℚ) : PredOut :=
  { probability := probability, prediction := 0, confidence := "medium"
    forecast_hour := some hour }

/-- The literal (hour, probability) input of the spec's window example. -/
def specWindowInput : List PredOut :=
  [mkhp 0 0.3, mkhp 1 0.6, mkhp 2 0.8, mkhp 3 0.4, mkhp 4 0.7, mkhp 5 0.2]

/-! ### Window-scan invariants (for claims C1 and C2) -/

/-- The hours of a prediction list are the consecutive integers
`k, k+1, …` in order — the shape `predict_time_series` produces (its
`forecast_hour` fields are the loop indices `range(forecast_hours)`). -/
def hours_indexed_from (k : ℕ) : List PredOut → Bool
  | [] => true
  | p :: rest =>
      decide (p.forecast_hour.getD 0 = k) && hours_indexed_from (k + 1) rest

/-- What holds of every closed window: its `avg_probability` is the mean
probability of exactly the predictions whose hour lies in
`[start_hour, end_hour]`, its bounds are ordered, and its `duration`
equals the span `end_hour - start_hour + 1`. -/
def WindowGood (predictions : List PredOut) (w : ForecastWindow) : Prop :=
  w.avg_probability =
    listMean ((window_predictions predictions w).map (fun p => p.probability)) ∧
  w.start_hour ≤ w.end_hour ∧
  w.duration = w.end_hour - w.start_hour + 1

theorem close_window_start (preds : List PredOut) (w : ForecastWindow) :
    (close_window preds w).start_hour = w.start_hour := rfl

theorem close_window_end (preds : List PredOut) (w : ForecastWindow) :
    (close_window preds w).end_hour = w.end_hour := rfl

theorem close_window_duration (preds : List PredOut) (w : ForecastWindow) :
    (close_window preds w).duration = w.duration := rfl

theorem close_window_good (preds : List PredOut) (w : ForecastWindow)
    (h1 : w.start_hour ≤ w.end_hour)
    (h2 : w.duration = w.end_hour - w.start_hour + 1) :
    WindowGood preds (close_window preds w) := by
  refine ⟨rfl, ?_, ?_⟩
  · rw [close_window_start, close_window_end]; exact h1
  · rw [close_window_duration, close_window_start, close_window_end]; exact h2

theorem find_windows_loop_good (predictions : List PredOut) :
    ∀ (rest : List PredOut) (k : ℕ) (windows : List ForecastWindow)
      (cur : Option ForecastWindow),
      hours_indexed_from k rest = true →
      (∀ w ∈ windows, WindowGood predictions w) →
      (∀ w, cur = some w → w.start_hour ≤ w.end_hour ∧ w.end_hour + 1 = k ∧
          w.duration = w.end_hour - w.start_hour + 1) →
      ∀ w ∈ find_windows_loop predictions windows cur rest,
        WindowGood predictions w := by
  intro rest
  induction rest with
  | nil =>
      intro k windows cur _ hw hcur w hmem
      match hc : cur with
      | none =>
          exact hw w hmem
      | some wo =>
          rcases List.mem_append.mp hmem with h | h
          · exact hw w h
          · rcases List.mem_singleton.mp h with rfl
            obtain ⟨h1, _, h3⟩ := hcur wo rfl
            exact close_window_good predictions wo h1 h3
  | cons p rest ih =>
      intro k windows cur hidx hw hcur w hmem
      rw [hours_indexed_from, Bool.and_eq_true, decide_eq_true_eq] at hidx
      obtain ⟨hk, hrest⟩ := hidx
      match hc : cur with
      | none =>
          by_cases hp : peak_threshold ≤ p.probability
          · simp only [find_windows_loop, if_pos hp] at hmem
            refine ih (k + 1) windows _ hrest hw ?_ w hmem
            intro w2 hw2
            injection hw2 with hw2
            subst hw2
            refine ⟨Nat.le_refl _, ?_, ?_⟩ <;> simp [hk]
          · simp only [find_windows_loop, if_neg hp] at hmem
            exact ih (k + 1) windows none hrest hw
              (by intro w2 hw2; cases hw2) w hmem
      | some wo =>
          obtain ⟨h1, h2, h3⟩ := hcur wo rfl
          by_cases hp : peak_threshold ≤ p.probability
          · simp only [find_windows_loop, if_pos hp] at hmem
            refine ih (k + 1) windows _ hrest hw ?_ w hmem
            intro w2 hw2
            injection hw2 with hw2
            subst hw2
            refine ⟨?_, ?_, ?_⟩ <;> simp [hk] <;> omega
          · simp only [find_windows_loop, if_neg hp] at hmem
            refine ih (k + 1) _ none hrest ?_
              (by intro w2 hw2; cases hw2) w hmem
            intro w2 hw2
            rcases List.mem_append.mp hw2 with h | h
            · exact hw w2 h
            · rcases List.mem_singleton.mp h with rfl
              exact close_window_good predictions wo h1 h3

/-- C1: on the literal input `[(0,0.3),(1,0.6),(2,0.8),(3,0.4),(4,0.7),(5,0.2)]`
with threshold 0.5, the forecast window analyzer returns exactly two
windows, one with `start_hour = 1`, `end_hour = 2`, `max_probability = 0.8`
and one with `start_hour = 4`, `end_hour = 4`, `max_probability = 0.7`. -/
theorem C1_forecast_windows_literal :
    find_peak_probability_windows specWindowInput =
      [{ start_hour := 1, end_hour := 2, max_probability := 0.8
         avg_probability := 0.7, duration := 2 },
       { start_hour := 4, end_hour := 4, max_probability := 0.7
         avg_probability := 0.7, duration := 1 }] := by
  norm_num [specWindowInput, find_peak_probability_windows, find_windows_loop,
    mkhp, peak_threshold, close_window, window_predictions, listMean, max_def]

/-- A window input with a gap: hours 0 and 2 are above threshold, hour 1
is absent from the sequence altogether. -/
def gapWindowInput : List PredOut := [mkhp 0 0.6, mkhp 2 0.6]

/-- C2, counterexample: on the gapped input the analyzer produces the
single window `[0, 2]` whose `duration` is `2` — the number of scanned
above-threshold predictions — not `end_hour - start_hour + 1 = 3` as the
claim states for windows with internal gaps. -/
theorem C2_counterexample_duration_gap :
    find_peak_probability_windows gapWindowInput =
      [{ start_hour := 0, end_hour := 2, max_probability := 0.6
         avg_probability := 0.6, duration := 2 }] ∧
    ¬ (2 : ℕ) = 2 - 0 + 1 := by
  constructor
  · norm_num [gapWindowInput, find_peak_probability_windows, find_windows_loop,
      mkhp, peak_threshold, close_window, window_predictions, listMean, max_def]
  · decide

/-- C2, amended: for every prediction sequence whose hours are the
consecutive integers `0, 1, 2, …` in order (the shape produced by
`predict_time_series`; on gapped hour sequences the duration clause fails,
see the counterexample), every window the analyzer produces has
`avg_probability` equal to the arithmetic mean of the probabilities of
exactly the predictions whose hour lies in `[start_hour, end_hour]`
inclusive, and `duration` equal to `end_hour - start_hour + 1`. -/
theorem C2_window_avg_and_duration (predictions : List PredOut)
    (hidx : hours_indexed_from 0 predictions = true) :
    ∀ w ∈ find_peak_probability_windows predictions,
      w.avg_probability =
        listMean ((window_predictions predictions w).map (fun p => p.probability)) ∧
      w.start_hour ≤ w.end_hour ∧
      w.duration = w.end_hour - w.start_hour + 1 := by
  intro w hmem
  exact find_windows_loop_good predictions predictions 0 [] none hidx
    (by intro w2 hw2; cases hw2) (by intro w2 hw2; cases hw2) w hmem

/-- A small consecutive-hour input for the C2 witness. -/
def consecWindowInput : List PredOut := [mkhp 0 0.6, mkhp 1 0.7, mkhp 2 0.1]

/-- The window the analyzer produces on `consecWindowInput`. -/
def consecWindow : ForecastWindow :=
  { start_hour := 0, end_hour := 1, max_probability := 0.7
    avg_probability := 0.65, duration := 2 }

/-- Witness for C2 at a concrete consecutive-hour input. -/
theorem C2_window_avg_and_duration_witness :
    consecWindow.avg_probability =
      listMean ((window_predictions consecWindowInput consecWindow).map
        (fun p => p.probability)) ∧
    consecWindow.start_hour ≤ consecWindow.end_hour ∧
    consecWindow.duration = consecWindow.end_hour - consecWindow.start_hour + 1 :=
  C2_window_avg_and_duration consecWindowInput (by decide) consecWindow (by
    have h : find_peak_probability_windows consecWindowInput = [consecWindow] := by
      norm_num [consecWindowInput, find_peak_probability_windows,
        find_windows_loop, mkhp, peak_threshold, close_window,
        window_predictions, listMean, max_def, consecWindow]
    rw [h]
    exact List.mem_singleton.mpr rfl)

/-! ### Fixtures: a loaded demo service -/

/-- A concrete loaded model bundle: one trained feature, a classifier that
always reports probability 0.6. -/
def demoModel : TrainedModel :=
  { model_name := "random_forest"
    feature_names := ["temperature"]
    predict_proba := fun _ => .ok 0.6 }

/-- A concrete feature-engineering transform: raises (like the real
pipeline on an uncoercible payload) whenever the observation carries a
`"poison"` key, and otherwise passes the numeric fields through. -/
def demoTransform : Obs → Except String Features :=
  fun weather_data =>
    match dictGet weather_data "poison" with
    | some _ => .error "InferenceFailure: classifier raised"
    | none => .ok (weather_data.filterMap (fun kv =>
        match kv.2 with
        | .num q => some (kv.1, q)
        | .str _ => none))

/-- A loaded service without a Redis connection. -/
def demoService : Service :=
  { model_loaded := true, model := demoModel, transform := demoTransform
    redis_client := none }

/-- A well-formed concrete observation. -/
def demoObs : Obs := [("temperature", PyVal.num 20)]

/-- The trainer result the demo service computes on `demoObs`. -/
def demoTrainerResult : TrainerResult :=
  { probability := 0.6, prediction := 1, confidence := "medium"
    model_used := "random_forest" }

theorem demo_trainer_predict :
    trainer_predict demoModel demoTransform demoObs =
      Except.ok demoTrainerResult := by
  norm_num [trainer_predict, demoModel, demoTransform, demoObs,
    demoTrainerResult, feature_vector, PREDICTION_THRESHOLD, dictGet]
  rfl

/-- C7: the feature vector always has exactly `len(feature_names)` entries
in `feature_names` order, and any trained feature name absent from the
transformed record contributes `0` at its position (never a dropped column,
never an error). -/
theorem C7_feature_vector_defaults (m : TrainedModel) (features : Features) :
    (feature_vector m features).length = m.feature_names.length ∧
    ∀ i (h : i < m.feature_names.length),
      dictGet features (m.feature_names.get ⟨i, h⟩) = none →
      (feature_vector m features).get
        ⟨i, by rw [feature_vector, List.length_map]; exact h⟩ = 0 := by
  refine ⟨by rw [feature_vector, List.length_map], ?_⟩
  intro i h hmiss
  simp only [List.get_eq_getElem] at hmiss
  simp only [feature_vector, List.get_eq_getElem, List.getElem_map, hmiss,
    Option.getD_none]

/-- Witness for C7: the demo model expects `"temperature"`; on an empty
transformed record the vector still has length 1, with `0` at position 0. -/
theorem C7_feature_vector_defaults_witness :
    (feature_vector demoModel []).length = demoModel.feature_names.length ∧
    (feature_vector demoModel []).get ⟨0, by simp [feature_vector, demoModel]⟩ = 0 := by
  refine ⟨(C7_feature_vector_defaults demoModel []).1, ?_⟩
  have h0 : (0 : ℕ) < demoModel.feature_names.length := by simp [demoModel]
  exact (C7_feature_vector_defaults demoModel []).2 0 h0 rfl

/-- C8: for every successful trainer prediction (under the classifier
contract that reported probabilities lie in `[0,1]`), the returned
probability lies in `[0,1]`, the class is 0 or 1, and the class is 1
exactly when the probability reaches `PREDICTION_THRESHOLD`; in
particular a probability equal to the threshold is classified positive. -/
theorem C8_probability_and_class (m : TrainedModel)
    (transform : Obs → Except String Features) (weather_data : Obs)
    (r : TrainerResult)
    (hproba : ∀ X q, m.predict_proba X = Except.ok q → 0 ≤ q ∧ q ≤ 1)
    (h : trainer_predict m transform weather_data = Except.ok r) :
    (0 ≤ r.probability ∧ r.probability ≤ 1) ∧
    (r.prediction = 0 ∨ r.prediction = 1) ∧
    (r.prediction = 1 ↔ PREDICTION_THRESHOLD ≤ r.probability) ∧
    (r.probability = PREDICTION_THRESHOLD → r.prediction = 1) := by
  rw [trainer_predict] at h
  split at h
  · exact absurd h (by simp)
  · split at h
    · exact absurd h (by simp)
    · rename_i features _ q hp
      obtain ⟨h0, h1⟩ := hproba _ q hp
      injection h with h
      subst h
      refine ⟨⟨h0, h1⟩, ?_, ?_, ?_⟩
      · by_cases hth : PREDICTION_THRESHOLD ≤ q <;> simp [hth]
      · by_cases hth : PREDICTION_THRESHOLD ≤ q <;> simp [hth]
      · intro hq
        have hth : PREDICTION_THRESHOLD ≤ q := le_of_eq hq.symm
        simp [hth]

/-- Witness for C8 at the demo service's concrete prediction. -/
theorem C8_probability_and_class_witness :
    (0 ≤ demoTrainerResult.probability ∧ demoTrainerResult.probability ≤ 1) ∧
    (demoTrainerResult.prediction = 0 ∨ demoTrainerResult.prediction = 1) ∧
    (demoTrainerResult.prediction = 1 ↔
      PREDICTION_THRESHOLD ≤ demoTrainerResult.probability) ∧
    (demoTrainerResult.probability = PREDICTION_THRESHOLD →
      demoTrainerResult.prediction = 1) :=
  C8_probability_and_class demoModel demoTransform demoObs demoTrainerResult
    (by intro X q hq
        simp only [demoModel, Except.ok.injEq] at hq
        subst hq
        norm_num)
    demo_trainer_predict

theorem confidence_eval (q : ℚ) :
    ((if 0.7 < q ∨ q < 0.3 then "high" else "medium") = "high" ↔
      (0.7 < q ∨ q < 0.3)) ∧
    ((if 0.7 < q ∨ q < 0.3 then "high" else "medium") = "medium" ↔
      (0.3 ≤ q ∧ q ≤ 0.7)) := by
  by_cases hcond : 0.7 < q ∨ q < 0.3
  · rw [if_pos hcond]
    refine ⟨iff_of_true rfl hcond, iff_of_false (by decide) ?_⟩
    rintro ⟨h3, h7⟩
    rcases hcond with hc | hc <;> linarith
  · rw [if_neg hcond]
    push_neg at hcond
    exact ⟨iff_of_false (by decide) (by rintro (hc | hc) <;> linarith [hcond.1, hcond.2]),
      iff_of_true rfl ⟨hcond.2, hcond.1⟩⟩

/-- C9: for every successful trainer prediction, the confidence is
`"high"` exactly when the probability is above 0.7 or below 0.3, and
`"medium"` otherwise — in particular at probabilities exactly 0.3 and
exactly 0.7 it is `"medium"`. -/
theorem C9_confidence_rule (m : TrainedModel)
    (transform : Obs → Except String Features) (weather_data : Obs)
    (r : TrainerResult)
    (h : trainer_predict m transform weather_data = Except.ok r) :
    (r.confidence = "high" ↔ (0.7 < r.probability ∨ r.probability < 0.3)) ∧
    (r.confidence = "medium" ↔ (0.3 ≤ r.probability ∧ r.probability ≤ 0.7)) ∧
    (r.probability = 0.3 → r.confidence = "medium") ∧
    (r.probability = 0.7 → r.confidence = "medium") := by
  rw [trainer_predict] at h
  split at h
  · exact absurd h (by simp)
  · split at h
    · exact absurd h (by simp)
    · rename_i features _ q hp
      injection h with h
      subst h
      refine ⟨(confidence_eval q).1, (confidence_eval q).2, ?_, ?_⟩
      · intro hq
        have hq3 : q = 0.3 := hq
        exact (confidence_eval q).2.mpr ⟨le_of_eq hq3.symm, by rw [hq3]; norm_num⟩
      · intro hq
        have hq7 : q = 0.7 := hq
        exact (confidence_eval q).2.mpr ⟨by rw [hq7]; norm_num, le_of_eq hq7⟩

/-- Witness for C9 at the demo service's concrete prediction (probability
0.6, confidence `"medium"`). -/
theorem C9_confidence_rule_witness :
    (demoTrainerResult.confidence = "high" ↔
      (0.7 < demoTrainerResult.probability ∨ demoTrainerResult.probability < 0.3)) ∧
    (demoTrainerResult.confidence = "medium" ↔
      (0.3 ≤ demoTrainerResult.probability ∧ demoTrainerResult.probability ≤ 0.7)) ∧
    (demoTrainerResult.probability = 0.3 → demoTrainerResult.confidence = "medium") ∧
    (demoTrainerResult.probability = 0.7 → demoTrainerResult.confidence = "medium") :=
  C9_confidence_rule demoModel demoTransform demoObs demoTrainerResult
    demo_trainer_predict

/-- C3: `predict_batch` returns exactly one result per observation, in
input order; a failing item yields `probability = 0`, class `0`,
confidence `"low"` and an error annotation at its own index, while a
succeeding item's slot carries exactly the result of predicting that item
alone with caching disabled (annotated with its batch index); no per-item
failure aborts the batch. -/
theorem C3_batch_isolation (svc : Service) (weather_data_list : List Obs)
    (location : Option Loc) :
    (predict_batch svc weather_data_list location).length =
      weather_data_list.length ∧
    ∀ i w, weather_data_list.get? i = some w →
      ((∀ e, predict_rainbow_probability svc w location false = .error e →
          (predict_batch svc weather_data_list location).get? i =
            some (batch_error_item e i)) ∧
       (∀ out, predict_rainbow_probability svc w location false = .ok out →
          (predict_batch svc weather_data_list location).get? i =
            some { out.result with batch_index := some i })) := by
  constructor
  · simp [predict_batch]
  · intro i w hw
    have hbatch : (predict_batch svc weather_data_list location).get? i =
        some (match predict_rainbow_probability svc w location false with
              | .ok out => { out.result with batch_index := some i }
              | .error e => batch_error_item e i) := by
      rw [predict_batch, List.get?_map, List.get?_enum, hw]
      rfl
    refine ⟨?_, ?_⟩
    · intro e he
      rw [hbatch, he]
    · intro out hout
      rw [hbatch, hout]

/-- A two-item batch whose second item poisons the demo transform. -/
def demoBatchInput : List Obs :=
  [demoObs, [("poison", PyVal.num 1)]]

/-- The enriched result the demo service returns for `demoObs` predicted
alone with caching disabled. -/
def demoPredOut : PredOut :=
  { probability := 0.6, prediction := 1, confidence := "medium"
    model_used := some "random_forest", location := none
    weather_conditions := some "mild"
    recommendation :=
      some "Good chance of rainbow. Keep an eye on the sky and be prepared."
    cached := false }

theorem demo_summary :
    summarize_weather_conditions demoObs = "mild" := by
  norm_num [summarize_weather_conditions, dictGetNum, dictGet, demoObs,
    show ("temperature" : String) ≠ "humidity" from by decide,
    show ("temperature" : String) ≠ "precipitation" from by decide,
    show ("temperature" : String) ≠ "cloud_cover" from by decide,
    String.intercalate]
  rfl

theorem demo_predict_single :
    predict_rainbow_probability demoService demoObs none false =
      Except.ok { result := demoPredOut, weather_data := demoObs
                  redis_client := none } := by
  norm_num [predict_rainbow_probability, demoService, demo_trainer_predict,
    demoTrainerResult, demoPredOut, demo_summary, generate_recommendation]

theorem demo_predict_poisoned :
    predict_rainbow_probability demoService [("poison", PyVal.num 1)] none false =
      Except.error "InferenceFailure: classifier raised" := by
  norm_num [predict_rainbow_probability, demoService, demoModel, demoTransform,
    trainer_predict, dictGet]

/-- Witness for C3: a batch with one healthy and one poisoned item. -/
theorem C3_batch_isolation_witness :
    (predict_batch demoService demoBatchInput none).get? 0 =
      some { demoPredOut with batch_index := some 0 } ∧
    (predict_batch demoService demoBatchInput none).get? 1 =
      some (batch_error_item "InferenceFailure: classifier raised" 1) := by
  constructor
  · exact ((C3_batch_isolation demoService demoBatchInput none).2 0 demoObs
      rfl).2 _ demo_predict_single
  · exact ((C3_batch_isolation demoService demoBatchInput none).2 1
      [("poison", PyVal.num 1)] rfl).1 _ demo_predict_poisoned

/-! ### C4: observation mutation by `predict_rainbow_probability` -/

/-- A concrete location. -/
def demoLoc : Loc := [("latitude", 36.1), ("longitude", 137.9)]

/-- The caller's observation dict after `weather_data.update(location)`. -/
def demoObsMerged : Obs :=
  demoObs ++ [("latitude", PyVal.num 36.1), ("longitude", PyVal.num 137.9)]

theorem demo_merge :
    dictUpdate demoObs (locEntries demoLoc) = demoObsMerged := by
  norm_num [dictUpdate, locEntries, demoLoc, demoObs, demoObsMerged, dictSet,
    dictContains, dictGet,
    show ("temperature" : String) ≠ "latitude" from by decide,
    show ("temperature" : String) ≠ "longitude" from by decide,
    show ("latitude" : String) ≠ "longitude" from by decide]

theorem demo_summary_merged :
    summarize_weather_conditions demoObsMerged = "mild" := by
  norm_num [summarize_weather_conditions, dictGetNum, dictGet, demoObsMerged,
    demoObs, String.intercalate,
    show ("temperature" : String) ≠ "humidity" from by decide,
    show ("temperature" : String) ≠ "precipitation" from by decide,
    show ("temperature" : String) ≠ "cloud_cover" from by decide,
    show ("latitude" : String) ≠ "humidity" from by decide,
    show ("latitude" : String) ≠ "precipitation" from by decide,
    show ("latitude" : String) ≠ "cloud_cover" from by decide,
    show ("longitude" : String) ≠ "humidity" from by decide,
    show ("longitude" : String) ≠ "precipitation" from by decide,
    show ("longitude" : String) ≠ "cloud_cover" from by decide]
  rfl

theorem demo_trainer_merged :
    trainer_predict demoModel demoTransform demoObsMerged =
      Except.ok demoTrainerResult := by
  norm_num [trainer_predict, demoModel, demoTransform, demoObsMerged, demoObs,
    demoTrainerResult, feature_vector, PREDICTION_THRESHOLD, dictGet,
    show ("temperature" : String) ≠ "poison" from by decide,
    show ("latitude" : String) ≠ "poison" from by decide,
    show ("longitude" : String) ≠ "poison" from by decide]

theorem demo_predict_with_loc :
    predict_rainbow_probability demoService demoObs (some demoLoc) false =
      Except.ok { result := { demoPredOut with location := some demoLoc }
                  weather_data := demoObsMerged
                  redis_client := none } := by
  norm_num [predict_rainbow_probability, demoService, demo_merge,
    demo_trainer_merged, demoTrainerResult, demoPredOut, demo_summary_merged,
    generate_recommendation]

/-- The caller-visible observation of a prediction call's outcome. -/
def outcome_weather (r : Except String PredOutcome) : Option Obs :=
  match r with
  | .ok out => some out.weather_data
  | .error _ => none

/-- C4, counterexample: predicting `demoObs` with a location attached
returns with the caller's observation dict changed in place — it has
gained the location's `latitude`/`longitude` entries — so the single
prediction does not leave the caller's observation unchanged, and the
location's fields do reach the transformed record without the caller
merging them. -/
theorem C4_counterexample_observation_mutated :
    outcome_weather
        (predict_rainbow_probability demoService demoObs (some demoLoc) false) =
      some demoObsMerged ∧
    ¬ outcome_weather
        (predict_rainbow_probability demoService demoObs (some demoLoc) false) =
      some demoObs := by
  rw [demo_predict_with_loc]
  refine ⟨rfl, ?_⟩
  intro h
  rw [outcome_weather] at h
  injection h with h
  rw [demoObsMerged, demoObs] at h
  cases h

/-- C4, amended: with no location (or on a cache hit) the call leaves the
caller's observation unchanged; with a location, the fresh-prediction
path merges the location's entries into the caller's observation mapping
in place (`weather_data.update(location)`, predictor.py 78-79), so the
returned caller-visible observation is either the untouched original
(cache hit) or the original with the location merged in. -/
theorem C4_observation_mutation (svc : Service) (weather_data : Obs)
    (use_cache : Bool) :
    (∀ out, predict_rainbow_probability svc weather_data none use_cache =
        Except.ok out → out.weather_data = weather_data) ∧
    (∀ loc out, predict_rainbow_probability svc weather_data (some loc) use_cache =
        Except.ok out →
      out.weather_data = weather_data ∨
      out.weather_data = dictUpdate weather_data (locEntries loc)) := by
  constructor
  · intro out h
    simp only [predict_rainbow_probability] at h
    split at h
    · exact absurd h (by simp)
    · split at h
      · injection h with h
        subst h
        rfl
      · split at h
        · exact absurd h (by simp)
        · injection h with h
          subst h
          rfl
  · intro loc out h
    simp only [predict_rainbow_probability] at h
    split at h
    · exact absurd h (by simp)
    · split at h
      · injection h with h
        subst h
        exact Or.inl rfl
      · split at h
        · exact absurd h (by simp)
        · injection h with h
          subst h
          exact Or.inr rfl

/-- Witness for C4 at the demo service with no location. -/
theorem C4_observation_mutation_witness :
    (PredOutcome.mk demoPredOut demoObs none).weather_data = demoObs :=
  (C4_observation_mutation demoService demoObs false).1 _ demo_predict_single

/-! ### C6: cache read/write failures are recovered locally -/

/-- The caller-visible part of a prediction call: the returned result and
the caller's observation (the Redis client state is projected away). -/
def outcome_visible (e : Except String PredOutcome) :
    Except String (PredOut × Obs) :=
  e.map (fun out => (out.result, out.weather_data))

/-- C6: a failing cache read behaves exactly like a cache miss — the call
returns what the uncached fresh path returns; a failing cache write
changes nothing the caller sees and leaves the store untouched (the
silent no-op of `_cache_prediction`). -/
theorem C6_cache_failures_recovered :
    (∀ (svc : Service) (r : RedisClient) (w : Obs) (loc : Option Loc),
      svc.redis_client = some r → r.get_fails = true →
      outcome_visible (predict_rainbow_probability svc w loc true) =
        outcome_visible (predict_rainbow_probability svc w loc false)) ∧
    (∀ (svc : Service) (r : RedisClient) (w : Obs) (loc : Option Loc) (uc : Bool),
      outcome_visible (predict_rainbow_probability
          { svc with redis_client := some { r with set_fails := true } } w loc uc) =
        outcome_visible (predict_rainbow_probability
          { svc with redis_client := some { r with set_fails := false } } w loc uc)) ∧
    (∀ (r : RedisClient) (k : String) (res : PredOut),
      r.set_fails = true → cache_prediction r k res = r) := by
  refine ⟨?_, ?_, ?_⟩
  · intro svc r w loc hr hfail
    by_cases hm : svc.model_loaded = false
    · simp [predict_rainbow_probability, hm, outcome_visible]
    · cases loc with
      | none =>
          cases htr : trainer_predict svc.model svc.transform w <;>
            simp [predict_rainbow_probability, hm, hr, get_cached_prediction,
              hfail, htr, outcome_visible, Except.map]
      | some l =>
          cases htr : trainer_predict svc.model svc.transform
              (dictUpdate w (locEntries l)) <;>
            simp [predict_rainbow_probability, hm, hr, get_cached_prediction,
              hfail, htr, outcome_visible, Except.map]
  · intro svc r w loc uc
    by_cases hm : svc.model_loaded = false
    · simp [predict_rainbow_probability, hm, outcome_visible]
    · cases uc with
      | false =>
          cases loc with
          | none =>
              cases htr : trainer_predict svc.model svc.transform w <;>
                simp [predict_rainbow_probability, hm, htr, outcome_visible,
                  Except.map]
          | some l =>
              cases htr : trainer_predict svc.model svc.transform
                  (dictUpdate w (locEntries l)) <;>
                simp [predict_rainbow_probability, hm, htr, outcome_visible,
                  Except.map]
      | true =>
          by_cases hgf : r.get_fails = true
          · cases loc with
            | none =>
                cases htr : trainer_predict svc.model svc.transform w <;>
                  simp [predict_rainbow_probability, hm, get_cached_prediction,
                    hgf, htr, outcome_visible, Except.map]
            | some l =>
                cases htr : trainer_predict svc.model svc.transform
                    (dictUpdate w (locEntries l)) <;>
                  simp [predict_rainbow_probability, hm, get_cached_prediction,
                    hgf, htr, outcome_visible, Except.map]
          · cases hd : dictGet r.store (create_cache_key w loc) with
            | some res =>
                simp [predict_rainbow_probability, hm, get_cached_prediction,
                  hgf, hd, outcome_visible, Except.map]
            | none =>
                cases loc with
                | none =>
                    cases htr : trainer_predict svc.model svc.transform w <;>
                      simp [predict_rainbow_probability, hm,
                        get_cached_prediction, hgf, hd, htr, outcome_visible,
                        Except.map]
                | some l =>
                    cases htr : trainer_predict svc.model svc.transform
                        (dictUpdate w (locEntries l)) <;>
                      simp [predict_rainbow_probability, hm,
                        get_cached_prediction, hgf, hd, htr, outcome_visible,
                        Except.map]
  · intro r k res h
    simp [cache_prediction, h]

/-- A Redis client whose reads and writes both fail. -/
def failingRedis : RedisClient :=
  { store := [], get_fails := true, set_fails := true }

/-- The demo service wired to the failing Redis client. -/
def demoServiceFailingRedis : Service :=
  { demoService with redis_client := some failingRedis }

/-- Witness for C6: against a failing client, a cached call returns what
the uncached call returns, and a failing write leaves the store as it was. -/
theorem C6_cache_failures_recovered_witness :
    outcome_visible
        (predict_rainbow_probability demoServiceFailingRedis demoObs none true) =
      outcome_visible
        (predict_rainbow_probability demoServiceFailingRedis demoObs none false) ∧
    cache_prediction failingRedis "k" demoPredOut = failingRedis :=
  ⟨C6_cache_failures_recovered.1 demoServiceFailingRedis failingRedis demoObs
      none rfl rfl,
   C6_cache_failures_recovered.2.2 failingRedis "k" demoPredOut rfl⟩

theorem listMax_eq_none_iff (l : List ℚ) : listMax l = none ↔ l = [] := by
  cases l <;> simp [listMax]

/-- C10: `predict_time_series` with `forecast_hours = 0` builds an empty
per-hour prediction list and raises from `max([])` instead of returning an
empty forecast; with any `forecast_hours ≥ 1` it returns normally. -/
theorem C10_time_series_zero_hours (svc : Service)
    (simulate_weather_forecast : Obs → ℕ → Obs) (current_weather : Obs)
    (location : Option Loc) :
    predict_time_series svc simulate_weather_forecast current_weather 0 location =
      Except.error "max() arg is an empty sequence" ∧
    ∀ n : ℕ, exceptOk (predict_time_series svc simulate_weather_forecast
        current_weather (n + 1) location) = true := by
  constructor
  · simp [predict_time_series, time_series_predictions, listMax]
  · intro n
    simp only [predict_time_series]
    cases hmx : listMax ((time_series_predictions svc simulate_weather_forecast
        current_weather (n + 1) location).map (fun p => p.probability)) with
    | none =>
        exfalso
        rw [listMax_eq_none_iff, List.map_eq_nil, time_series_predictions,
          List.map_eq_nil, List.range_eq_nil] at hmx
        cases hmx
    | some mx => simp [hmx, exceptOk]

/-! ### C5: cache-key determinism and quantization -/

theorem roundHalfEven_eq_low (q : ℚ) (z : ℤ) (h1 : (z : ℚ) ≤ q)
    (h2 : q < z + 1 / 2) : roundHalfEven q = z := by
  have hf : ⌊q⌋ = z := by
    rw [Int.floor_eq_iff]
    refine ⟨h1, ?_⟩
    linarith
  simp only [roundHalfEven, hf]
  rw [if_pos]
  linarith

theorem pyRound_22_001 : pyRound 22.001 2 = 22 := by
  rw [pyRound, show (22.001 : ℚ) * (10 : ℚ) ^ (2 : ℕ) = 2200.1 by norm_num,
    roundHalfEven_eq_low 2200.1 2200 (by norm_num) (by norm_num)]
  norm_num

theorem pyRound_22_004 : pyRound 22.004 2 = 22 := by
  rw [pyRound, show (22.004 : ℚ) * (10 : ℚ) ^ (2 : ℕ) = 2200.4 by norm_num,
    roundHalfEven_eq_low 2200.4 2200 (by norm_num) (by norm_num)]
  norm_num

theorem pyRound_22_0 : pyRound 22.0 2 = 22 := by
  rw [pyRound, show (22.0 : ℚ) * (10 : ℚ) ^ (2 : ℕ) = 2200 by norm_num,
    roundHalfEven_eq_low 2200 2200 (by norm_num) (by norm_num)]
  norm_num

theorem pyRound_22_01 : pyRound 22.01 2 = 22.01 := by
  rw [pyRound, show (22.01 : ℚ) * (10 : ℚ) ^ (2 : ℕ) = 2201 by norm_num,
    roundHalfEven_eq_low 2201 2201 (by norm_num) (by norm_num)]
  norm_num

theorem pyRound_36_00001 : pyRound 36.00001 4 = 36 := by
  rw [pyRound, show (36.00001 : ℚ) * (10 : ℚ) ^ (4 : ℕ) = 360000.1 by norm_num,
    roundHalfEven_eq_low 360000.1 360000 (by norm_num) (by norm_num)]
  norm_num

theorem pyRound_36_00004 : pyRound 36.00004 4 = 36 := by
  rw [pyRound, show (36.00004 : ℚ) * (10 : ℚ) ^ (4 : ℕ) = 360000.4 by norm_num,
    roundHalfEven_eq_low 360000.4 360000 (by norm_num) (by norm_num)]
  norm_num

theorem pyRound_137_9 : pyRound 137.9 4 = 137.9 := by
  rw [pyRound, show (137.9 : ℚ) * (10 : ℚ) ^ (4 : ℕ) = 1379000 by norm_num,
    roundHalfEven_eq_low 1379000 1379000 (by norm_num) (by norm_num)]
  norm_num

theorem serialize_22 : serializePyVal (PyVal.num 22) = intStr 220000 ++ "e-4" := by
  rw [serializePyVal, show (22 : ℚ) * 10000 = ((220000 : ℤ) : ℚ) by norm_num,
    Int.floor_intCast]

theorem serialize_22_01 :
    serializePyVal (PyVal.num 22.01) = intStr 220100 ++ "e-4" := by
  rw [serializePyVal, show (22.01 : ℚ) * 10000 = ((220100 : ℤ) : ℚ) by norm_num,
    Int.floor_intCast]

/-- C5: cache-key derivation is deterministic and quantizing — identical
inputs give identical keys; inputs differing only beyond the rounding
precision (2 decimals for weather numerics, 4 for latitude) give the same
key; inputs whose rounded values differ (22.00 vs 22.01) give different
keys. -/
theorem C5_cache_key_quantization :
    (∀ (w : Obs) (loc : Option Loc),
      create_cache_key w loc = create_cache_key w loc) ∧
    create_cache_key [("temperature", PyVal.num 22.001)] none =
      create_cache_key [("temperature", PyVal.num 22.004)] none ∧
    create_cache_key [] (some [("latitude", 36.00001), ("longitude", 137.9)]) =
      create_cache_key [] (some [("latitude", 36.00004), ("longitude", 137.9)]) ∧
    create_cache_key [("temperature", PyVal.num 22.0)] none ≠
      create_cache_key [("temperature", PyVal.num 22.01)] none := by
  refine ⟨fun w loc => rfl, ?_, ?_, ?_⟩
  · simp [create_cache_key, pyRound_22_001, pyRound_22_004]
  · simp [create_cache_key, dictGet, dictSet, dictContains, pyRound_36_00001,
      pyRound_36_00004, pyRound_137_9]
  · simp only [create_cache_key, List.map, pyRound_22_0, pyRound_22_01,
      pyStringHash, jsonDumpsSorted, sortByKey, List.foldr, insertByKey,
      serialize_22, serialize_22_01]
    decide

end RainbowSeeker
